import Mathlib

/-!
# SmartPDF query/conversation orchestration core — shallow embedding

This file embeds the state and event handlers of the React component
`src/frontend/src/components/QueryInput.jsx` (the second, feature-complete
version of the component: page-navigation offers, abort controller, document
analysis) as pure Lean functions over an explicit state record, and proves or
refutes the specification's claims about it.

Conventions of the embedding:
- Each `useState` field becomes a field of `AppState`.
- An async handler is modelled as a pure function from the pre-state and the
  outcome of its network call (`FetchResult`) to the post-state; the network
  request it issues, when any, is returned alongside so that "no request is
  issued" is expressible.
- UI gating (a disabled button, a conditionally rendered button) is modelled
  as an explicit guard in front of the handler, mirroring the JSX `disabled`
  attribute and conditional rendering.
-/

namespace SmartPDF

/-- One conversation entry, as built by `handleSubmit` / `handlePageNavigation`:
`{ role, content }` with an optional `isPagePrompt` flag (absent = falsy). -/
structure Turn where
  role : String
  content : String
  isPagePrompt : Bool := false
deriving Repr, DecidableEq

/-- A located page as delivered by the backend: `{ page: number, ... }`; only
the `page` field is read by the component. -/
structure PageRef where
  page : Nat
deriving Repr, DecidableEq

/-- The success body of `POST /api/query`:
`{ response, has_location?, pages? }`; a missing `has_location` is falsy and a
missing `pages` has length 0, so the defaults model absence. -/
structure QueryResponse where
  response : String
  has_location : Bool := false
  pages : List PageRef := []
deriving Repr, DecidableEq

/-- The JSON body of the `POST /api/query` request built in `handleSubmit`. -/
structure QueryRequest where
  query : String
  pdf_name : String
  conversation_history : List Turn
  is_new_conversation : Bool
deriving Repr, DecidableEq

/-- Outcome of a fetch as the component observes it: `ok` carries the parsed
JSON body; `err` covers both a network error and a non-2xx response, which the
component collapses into one catch path (`if (!response.ok) throw ...`). -/
inductive FetchResult (α : Type) where
  | ok (data : α)
  | err
deriving Repr, DecidableEq

/-- JavaScript `String.prototype.trim()`: strip leading and trailing
whitespace. Embedded structurally over the character list so that it
evaluates inside the kernel. -/
def jsTrim (s : String) : String :=
  String.mk
    (((s.data.dropWhile Char.isWhitespace).reverse.dropWhile
        Char.isWhitespace).reverse)

/-- JavaScript `String.prototype.toLowerCase()` on the ASCII fragment the
component uses ("yes"/"no"/"Yes"/"No"). Embedded structurally over the
character list so that it evaluates inside the kernel. -/
def jsToLowerCase (s : String) : String :=
  String.mk (s.data.map Char.toLower)

/-- The component's state: one field per `useState` hook of `QueryInput`.
`analysisResults` is kept abstract as the raw presence of a result, since the
component only ever stores it or clears it. -/
structure AppState where
  query : String
  conversations : List Turn
  loading : Bool
  pdfFiles : List String
  selectedPdf : String
  error : Option String
  expandedIndex : Option Nat
  isNewConversation : Bool
  isResetting : Bool
  isFetchingPdfs : Bool
  showPdfViewer : Bool
  analysisResults : Option String
  currentPage : Nat
  showPagePrompt : Bool
  foundPages : List PageRef
deriving Repr, DecidableEq

/-- The initial state of every `useState` hook. -/
def initState : AppState :=
  { query := ""
    conversations := []
    loading := false
    pdfFiles := []
    selectedPdf := ""
    error := none
    expandedIndex := none
    isNewConversation := true
    isResetting := false
    isFetchingPdfs := false
    showPdfViewer := false
    analysisResults := none
    currentPage := 1
    showPagePrompt := false
    foundPages := [] }

/-- The request body built in `handleSubmit`:
`{ query, pdf_name: selectedPdf, conversation_history: isNewConversation ? [] : conversations, is_new_conversation: isNewConversation }`. -/
def buildQueryRequest (s : AppState) : QueryRequest :=
  { query := s.query
    pdf_name := s.selectedPdf
    conversation_history := if s.isNewConversation then [] else s.conversations
    is_new_conversation := s.isNewConversation }

/-- The fetch init object of the query request (source lines 287-298): it has
`method`, `headers` and `body` fields and no `signal` field, so the abort
controller's signal is not attached to this request. -/
structure SubmitFetchInit where
  method : String
  hasContentTypeHeader : Bool
  body : QueryRequest
  signal : Option Unit
deriving Repr, DecidableEq

/-- The literal fetch options passed in `handleSubmit`. -/
def submitFetchInit (s : AppState) : SubmitFetchInit :=
  { method := "POST"
    hasContentTypeHeader := true
    body := buildQueryRequest s
    signal := none }

/-- The success branch of `handleSubmit` (after `response.ok`): build
`updatedConversations` from the prior context plus the human/assistant pair,
push the page prompt turn when `data.has_location && data.pages?.length > 0`,
then commit the states (`setFoundPages`, `setShowPagePrompt`,
`setConversations`, `setQuery("")`, `setExpandedIndex(null)`,
`setIsNewConversation(false)`); `setError(null)` ran before the fetch and
`setLoading(false)` runs in `finally`. -/
def applySubmitSuccess (s : AppState) (data : QueryResponse) : AppState :=
  let base : List Turn :=
    (if s.isNewConversation then [] else s.conversations) ++
      [{ role := "human", content := s.query },
       { role := "ai", content := data.response }]
  let hasPages : Bool := data.has_location && decide (0 < data.pages.length)
  { s with
    error := none
    foundPages := if hasPages then data.pages else s.foundPages
    showPagePrompt := if hasPages then true else s.showPagePrompt
    conversations :=
      if hasPages then
        base ++ [{ role := "ai"
                   content := "Do you want me to take you to that page?"
                   isPagePrompt := true }]
      else base
    query := ""
    expandedIndex := none
    isNewConversation := false
    loading := false }

/-- The catch branch of `handleSubmit`: `setError(null)` before the fetch,
then `setError("An error occurred while processing your query.")`, then
`setLoading(false)` in `finally`; nothing else is touched. -/
def applySubmitFailure (s : AppState) : AppState :=
  { s with
    error := some "An error occurred while processing your query."
    loading := false }

/-- `handleSubmit`: the early return `if (!query.trim() || !selectedPdf) return;`
issues no request; otherwise the fetch is issued with `buildQueryRequest` and
the outcome is folded in. Returns the post-state together with the request
issued, if any. -/
def handleSubmit (s : AppState) (result : FetchResult QueryResponse) :
    AppState × Option QueryRequest :=
  if jsTrim s.query = "" ∨ s.selectedPdf = "" then (s, none)
  else
    match result with
    | .ok data => (applySubmitSuccess s data, some (buildQueryRequest s))
    | .err => (applySubmitFailure s, some (buildQueryRequest s))

/-- The submit button's `disabled` attribute (source lines 599-605):
`disabled={loading || !selectedPdf || !query.trim()}`. -/
def submitDisabled (s : AppState) : Bool :=
  s.loading || s.selectedPdf = "" || jsTrim s.query = ""

/-- A user-level submit: the form can only be submitted through the submit
button, which is inert while `submitDisabled`; otherwise `handleSubmit` runs. -/
def clickSubmit (s : AppState) (result : FetchResult QueryResponse) :
    AppState × Option QueryRequest :=
  if submitDisabled s then (s, none) else handleSubmit s result

/-- `handlePageNavigation(userResponse)` (source lines 335-351): on
`userResponse.toLowerCase() === "yes" && foundPages.length > 0`, show the
viewer, jump to `foundPages[0].page` and append the Yes/confirmation pair;
otherwise append a single "No" turn; in both branches `setShowPagePrompt(false)`. -/
def handlePageNavigation (s : AppState) (userResponse : String) : AppState :=
  if jsToLowerCase userResponse = "yes" ∧ 0 < s.foundPages.length then
    { s with
      showPdfViewer := true
      currentPage := (s.foundPages.headD { page := 0 }).page
      conversations :=
        s.conversations ++
          [{ role := "human", content := "Yes" },
           { role := "ai"
             content := "Navigating to page " ++
               toString (s.foundPages.headD { page := 0 }).page ++ "." }]
      showPagePrompt := false }
  else
    { s with
      conversations := s.conversations ++ [{ role := "human", content := "No" }]
      showPagePrompt := false }

/-- `handlePdfSelect` (source lines 354-364): record the new selection and
reset the conversation (`setIsNewConversation(true)`, `setConversations([])`),
hide the viewer, drop analysis results, reset the page and found pages. -/
def handlePdfSelect (s : AppState) (newSelectedPdf : String) : AppState :=
  { s with
    selectedPdf := newSelectedPdf
    isNewConversation := true
    conversations := []
    showPdfViewer := false
    analysisResults := none
    currentPage := 1
    foundPages := [] }

/-- `toggleNewConversation` (source lines 400-411): the "New Conversation"
button. Sets `isNewConversation`, clears conversations and the selection,
sets the transient `isResetting` flag, hides the viewer, drops analysis
results, resets the page and found pages. Note: it does not touch
`showPagePrompt`. -/
def toggleNewConversation (s : AppState) : AppState :=
  { s with
    isNewConversation := true
    conversations := []
    selectedPdf := ""
    isResetting := true
    showPdfViewer := false
    analysisResults := none
    currentPage := 1
    foundPages := [] }

/-- The success path of `fetchPdfFiles` (source lines 251-271):
`setIsFetchingPdfs(true)`, `setError(null)`, then on success
`setPdfFiles(data.pdf_files)` and, when the list is non-empty and no PDF is
selected, `setSelectedPdf(data.pdf_files[0])`; `setIsFetchingPdfs(false)` in
`finally`. -/
def fetchPdfFilesSuccess (s : AppState) (files : List String) : AppState :=
  let s1 := { s with error := none, pdfFiles := files }
  let s2 :=
    if 0 < files.length ∧ s.selectedPdf = "" then
      { s1 with selectedPdf := files.headD "" }
    else s1
  { s2 with isFetchingPdfs := false }

/-- The failure path of `fetchPdfFiles`: the error message is set unless the
error is an `AbortError`. -/
def fetchPdfFilesFailure (s : AppState) (isAbort : Bool) : AppState :=
  let s1 := { s with error := none }
  let s2 :=
    if isAbort then s1
    else { s1 with error := some "Failed to fetch PDF files. Please try again later." }
  { s2 with isFetchingPdfs := false }

/-- The derived "current conversation" view (source line 490):
`conversations.slice(-2)`, i.e. the last up-to-two turns. -/
def currentConversation (conversations : List Turn) : List Turn :=
  conversations.drop (conversations.length - 2)

/-- The derived "history" view (source line 491): `conversations.slice(0, -2)`,
i.e. everything before the last up-to-two turns, oldest first. -/
def historyConversation (conversations : List Turn) : List Turn :=
  conversations.take (conversations.length - 2)

/-- The Yes/No reply buttons render only inside a turn with `isPagePrompt`
and only while `showPagePrompt` is true, so a page-navigation reply is only
possible when both hold. -/
def canReply (s : AppState) : Bool :=
  s.showPagePrompt && s.conversations.any (fun t => t.isPagePrompt)

/-- User-visible events driving the component, each carrying the outcome of
its network call where one occurs. -/
inductive Event where
  | editQuery (q : String)
  | submit (result : FetchResult QueryResponse)
  | pageNav (userResponse : String)
  | pdfSelect (pdf : String)
  | newConvo
  | fetchPdfs (result : FetchResult (List String))
deriving Repr, DecidableEq

/-- One event-loop step: each user event dispatches to its handler, gated the
way the UI gates it (`clickSubmit` for the submit button, `canReply` for the
Yes/No buttons). -/
def step (s : AppState) : Event → AppState
  | .editQuery q => { s with query := q }
  | .submit result => (clickSubmit s result).1
  | .pageNav u => if canReply s then handlePageNavigation s u else s
  | .pdfSelect pdf => handlePdfSelect s pdf
  | .newConvo => toggleNewConversation s
  | .fetchPdfs (.ok files) => fetchPdfFilesSuccess s files
  | .fetchPdfs .err => fetchPdfFilesFailure s false

/-- Run a trace of events from the initial state. -/
def run (events : List Event) : AppState :=
  events.foldl step initState

/-- An event is a submit whose response carries a located page set (this is
the only event that can push an `isPagePrompt` turn). -/
def offersLocation : Event → Bool
  | .submit (.ok data) => data.has_location && decide (0 < data.pages.length)
  | _ => false

/-- The component together with its mounted/unmounted status: the cleanup of
the mount effect runs `abortController.current.abort()` on teardown. -/
structure World where
  app : AppState
  unmounted : Bool
deriving Repr, DecidableEq

/-- Component teardown: the effect cleanup calls `abortController.current.abort()`. -/
def unmount (w : World) : World :=
  { w with unmounted := true }

/-- Delivery of the completion of an in-flight submit-query request. The
continuation of `handleSubmit` after its `await` (source lines 300-331)
consults no abort or staleness guard, and the fetch was issued without the
controller's signal (`submitFetchInit`), so the completion is folded into the
state regardless of `unmounted`. -/
def deliverSubmitCompletion (w : World) (result : FetchResult QueryResponse) :
    World :=
  match result with
  | .ok data => { w with app := applySubmitSuccess w.app data }
  | .err => { w with app := applySubmitFailure w.app }

/-! ## Concrete states and traces used as witnesses and counterexamples -/

/-- A state mid-conversation: a committed first exchange, a selected document,
and a new query typed. -/
def stContinuing : AppState :=
  { initState with
    query := "Where is pricing discussed?"
    selectedPdf := "A.pdf"
    isNewConversation := false
    conversations :=
      [{ role := "human", content := "What is the summary?" },
       { role := "ai", content := "It is about X." }] }

/-- A state with a submit-query request in flight. -/
def stLoading : AppState :=
  { initState with
    query := "What is the summary?"
    selectedPdf := "A.pdf"
    loading := true }

/-- A state with a page offer pending its yes/no reply. -/
def stOfferPending : AppState :=
  { initState with
    selectedPdf := "A.pdf"
    isNewConversation := false
    conversations :=
      [{ role := "human", content := "Where is pricing discussed?" },
       { role := "ai", content := "See pricing section." },
       { role := "ai", content := "Do you want me to take you to that page?",
         isPagePrompt := true }]
    showPagePrompt := true
    foundPages := [{ page := 4 }, { page := 7 }] }

/-! ## C1 -/

/-- C1: for every submission that actually issues a request, the
`conversation_history` of the outgoing payload is `[]` when
`isNewConversation` is true and is exactly the full current `conversations`
when it is false. -/
theorem submit_payload_context (s : AppState) (result : FetchResult QueryResponse)
    (req : QueryRequest) (h : (clickSubmit s result).2 = some req) :
    (s.isNewConversation = true → req.conversation_history = []) ∧
    (s.isNewConversation = false → req.conversation_history = s.conversations) := by
  have hreq : req = buildQueryRequest s := by
    unfold clickSubmit handleSubmit at h
    split at h
    · exact absurd h (by simp)
    · split at h
      · exact absurd h (by simp)
      · cases result with
        | ok data => simpa using h.symm
        | err => simpa using h.symm
  subst hreq
  constructor <;> intro hn <;> simp [buildQueryRequest, hn]

/-- C1 witness: a concrete continuing-conversation submission. -/
theorem submit_payload_context_witness :
    (clickSubmit stContinuing (.ok { response := "See pricing section." })).2 =
      some (buildQueryRequest stContinuing) ∧
    ((stContinuing.isNewConversation = true →
        (buildQueryRequest stContinuing).conversation_history = []) ∧
     (stContinuing.isNewConversation = false →
        (buildQueryRequest stContinuing).conversation_history = stContinuing.conversations)) :=
  ⟨by decide,
   submit_payload_context stContinuing (.ok { response := "See pricing section." })
     (buildQueryRequest stContinuing) (by decide)⟩

/-! ## C2 -/

/-- C2: while a submit-query request is pending (`loading = true`), submitting
again issues no network request and changes no state at all (in particular the
conversation log), and the rejection is silent. -/
theorem submit_while_loading_noop (s : AppState) (result : FetchResult QueryResponse)
    (h : s.loading = true) : clickSubmit s result = (s, none) := by
  simp [clickSubmit, submitDisabled, h]

/-- C2 witness: submitting while `stLoading` is mid-request does nothing. -/
theorem submit_while_loading_noop_witness :
    stLoading.loading = true ∧
    clickSubmit stLoading (.ok { response := "It is about X." }) = (stLoading, none) :=
  ⟨rfl, submit_while_loading_noop stLoading (.ok { response := "It is about X." }) rfl⟩

/-! ## C4 -/

/-- C4: a submission whose request fails (network error or non-2xx response,
both of which throw into the same catch) leaves the conversation log and the
input text unchanged and sets the attempt-scoped error message. -/
theorem failed_submit_preserves_state (s : AppState) (req : QueryRequest)
    (h : (clickSubmit s .err).2 = some req) :
    (clickSubmit s .err).1.conversations = s.conversations ∧
    (clickSubmit s .err).1.query = s.query ∧
    (clickSubmit s .err).1.error =
      some "An error occurred while processing your query." := by
  unfold clickSubmit handleSubmit at h ⊢
  split at h
  · exact absurd h (by simp)
  · split at h
    · exact absurd h (by simp)
    · rename_i hdis hguard
      simp only [if_neg hdis, if_neg hguard]
      simp [applySubmitFailure]

/-- C4 witness: a concrete failed continuing-conversation submission. -/
theorem failed_submit_preserves_state_witness :
    (clickSubmit stContinuing .err).2 = some (buildQueryRequest stContinuing) ∧
    ((clickSubmit stContinuing .err).1.conversations = stContinuing.conversations ∧
     (clickSubmit stContinuing .err).1.query = stContinuing.query ∧
     (clickSubmit stContinuing .err).1.error =
       some "An error occurred while processing your query.") :=
  ⟨by decide,
   failed_submit_preserves_state stContinuing (buildQueryRequest stContinuing) (by decide)⟩

/-! ## C6 -/

/-- C6: selecting a document different from the current one resets the
conversation log to the empty sequence, sets `isNewConversation`, and records
the new selection, so no context crosses a document switch. -/
theorem select_new_document_resets (s : AppState) (pdf : String)
    (h : pdf ≠ s.selectedPdf) :
    (handlePdfSelect s pdf).conversations = [] ∧
    (handlePdfSelect s pdf).isNewConversation = true ∧
    (handlePdfSelect s pdf).selectedPdf = pdf := by
  simp [handlePdfSelect]

/-- C6 witness: switching `stContinuing` from "A.pdf" to "B.pdf". -/
theorem select_new_document_resets_witness :
    "B.pdf" ≠ stContinuing.selectedPdf ∧
    ((handlePdfSelect stContinuing "B.pdf").conversations = [] ∧
     (handlePdfSelect stContinuing "B.pdf").isNewConversation = true ∧
     (handlePdfSelect stContinuing "B.pdf").selectedPdf = "B.pdf") :=
  ⟨by decide, select_new_document_resets stContinuing "B.pdf" (by decide)⟩

/-! ## C7 -/

/-- C7: with a pending offer whose candidates are pages 4 and 7, replying yes
jumps to page 4 and appends exactly the human "Yes" and assistant
"Navigating to page 4." turns; replying no appends exactly the human "No" turn
and changes no page; both replies clear the prompt so it cannot re-trigger. -/
theorem page_offer_resolution (s : AppState)
    (hp : s.foundPages = [{ page := 4 }, { page := 7 }])
    (hpend : s.showPagePrompt = true) :
    (handlePageNavigation s "yes").currentPage = 4 ∧
    (handlePageNavigation s "yes").conversations =
      s.conversations ++
        [{ role := "human", content := "Yes" },
         { role := "ai", content := "Navigating to page 4." }] ∧
    (handlePageNavigation s "yes").showPagePrompt = false ∧
    canReply (handlePageNavigation s "yes") = false ∧
    (handlePageNavigation s "no").conversations =
      s.conversations ++ [{ role := "human", content := "No" }] ∧
    (handlePageNavigation s "no").currentPage = s.currentPage ∧
    (handlePageNavigation s "no").showPagePrompt = false ∧
    canReply (handlePageNavigation s "no") = false := by
  have hy : jsToLowerCase "yes" = "yes" := by decide
  have hn : ¬ (jsToLowerCase "no" = "yes") := by decide
  have hnav : "Navigating to page " ++ toString (4 : Nat) ++ "." =
      "Navigating to page 4." := by decide
  refine ⟨?_, ?_, ?_, ?_, ?_, ?_, ?_, ?_⟩ <;>
    simp [handlePageNavigation, canReply, hp, hy, hn, hnav]

/-- C7 witness: the pending-offer state with candidate pages 4 and 7. -/
theorem page_offer_resolution_witness :
    (stOfferPending.foundPages = [{ page := 4 }, { page := 7 }] ∧
     stOfferPending.showPagePrompt = true) ∧
    ((handlePageNavigation stOfferPending "yes").currentPage = 4 ∧
     (handlePageNavigation stOfferPending "yes").conversations =
       stOfferPending.conversations ++
         [{ role := "human", content := "Yes" },
          { role := "ai", content := "Navigating to page 4." }] ∧
     (handlePageNavigation stOfferPending "yes").showPagePrompt = false ∧
     canReply (handlePageNavigation stOfferPending "yes") = false ∧
     (handlePageNavigation stOfferPending "no").conversations =
       stOfferPending.conversations ++ [{ role := "human", content := "No" }] ∧
     (handlePageNavigation stOfferPending "no").currentPage = stOfferPending.currentPage ∧
     (handlePageNavigation stOfferPending "no").showPagePrompt = false ∧
     canReply (handlePageNavigation stOfferPending "no") = false) :=
  ⟨⟨rfl, rfl⟩, page_offer_resolution stOfferPending rfl rfl⟩

/-! ## C9 -/

/-- C9: for every conversation log, the history view concatenated with the
current-exchange view reconstructs the log exactly in order (no overlap, no
gap); the current exchange is the last up-to-2 turns and the history is the
remaining prefix. -/
theorem views_partition_log (conversations : List Turn) :
    historyConversation conversations ++ currentConversation conversations =
      conversations ∧
    (currentConversation conversations).length = min conversations.length 2 ∧
    (historyConversation conversations).length = conversations.length - 2 := by
  refine ⟨List.take_append_drop _ _, ?_, ?_⟩
  · simp only [currentConversation, List.length_drop]
    omega
  · simp only [historyConversation, List.length_take]
    omega

/-! ## C10 -/

/-- C10: when the document-list fetch succeeds with a non-empty list while no
document is selected, the first listed document becomes the selection and the
conversation state is untouched; when a document is already selected, the
selection is left unchanged. -/
theorem fetch_pdf_files_autoselect (s : AppState) (files : List String) :
    (s.selectedPdf = "" → 0 < files.length →
      (fetchPdfFilesSuccess s files).selectedPdf = files.headD "" ∧
      (fetchPdfFilesSuccess s files).conversations = s.conversations ∧
      (fetchPdfFilesSuccess s files).isNewConversation = s.isNewConversation ∧
      (fetchPdfFilesSuccess s files).query = s.query ∧
      (fetchPdfFilesSuccess s files).foundPages = s.foundPages ∧
      (fetchPdfFilesSuccess s files).showPagePrompt = s.showPagePrompt ∧
      (fetchPdfFilesSuccess s files).currentPage = s.currentPage) ∧
    (s.selectedPdf ≠ "" →
      (fetchPdfFilesSuccess s files).selectedPdf = s.selectedPdf ∧
      (fetchPdfFilesSuccess s files).conversations = s.conversations) := by
  constructor
  · intro h1 h2
    simp [fetchPdfFilesSuccess, h1, h2]
  · intro h1
    simp [fetchPdfFilesSuccess, h1]

/-- C10 witness: auto-selection from the empty initial state, and an unchanged
selection for a state that already has one. -/
theorem fetch_pdf_files_autoselect_witness :
    (fetchPdfFilesSuccess initState ["A.pdf", "B.pdf"]).selectedPdf = "A.pdf" ∧
    (fetchPdfFilesSuccess initState ["A.pdf", "B.pdf"]).conversations =
      initState.conversations ∧
    (fetchPdfFilesSuccess stContinuing ["B.pdf"]).selectedPdf =
      stContinuing.selectedPdf :=
  ⟨((fetch_pdf_files_autoselect initState ["A.pdf", "B.pdf"]).1 rfl (by decide)).1,
   ((fetch_pdf_files_autoselect initState ["A.pdf", "B.pdf"]).1 rfl (by decide)).2.1,
   ((fetch_pdf_files_autoselect stContinuing ["B.pdf"]).2 (by decide)).1⟩

/-! ## C8 -/

/-- C8 counterexample: `toggleNewConversation` does not clear the pending
yes/no prompt flag. From a state with a pending offer (`showPagePrompt = true`),
the reset leaves `showPagePrompt = true`, so the claim that the reset clears
the offer's pending prompt state fails at this input. -/
theorem new_conversation_keeps_prompt_flag :
    stOfferPending.showPagePrompt = true ∧
    (toggleNewConversation stOfferPending).showPagePrompt = true := by decide

/-- C8 amended: `toggleNewConversation` clears the turns, the selected
document and the candidate pages, and sets `isNewConversation`; it leaves the
`showPagePrompt` flag untouched, though no reply is possible afterwards
because the offer turn is gone with the cleared log. -/
theorem new_conversation_resets (s : AppState) :
    (toggleNewConversation s).conversations = [] ∧
    (toggleNewConversation s).selectedPdf = "" ∧
    (toggleNewConversation s).foundPages = [] ∧
    (toggleNewConversation s).isNewConversation = true ∧
    (toggleNewConversation s).showPagePrompt = s.showPagePrompt ∧
    canReply (toggleNewConversation s) = false := by
  simp [toggleNewConversation, canReply]

/-! ## C5 -/

/-- The in-flight world for the cancellation scenario: a submit-query request
outstanding at teardown time. -/
def wInFlight : World :=
  { app := stLoading, unmounted := false }

/-- C5: the teardown cleanup calls `abort()` on the controller, but the
submit fetch is issued without the controller's signal and the continuation
after the `await` checks no staleness guard, so a completion arriving after
teardown is still folded into state: the conversation log changes. -/
theorem cancelled_completion_still_applied :
    (submitFetchInit wInFlight.app).signal = none ∧
    (unmount wInFlight).unmounted = true ∧
    (deliverSubmitCompletion (unmount wInFlight)
        (.ok { response := "It is about X." })).app.conversations ≠
      wInFlight.app.conversations := by decide

/-! ## C3 -/

/-- C3 counterexample trace: load the list, type a query, submit, get a
located-page response (three turns appended), answer the offer with yes (two
more turns). -/
def offerYesTrace : List Event :=
  [.fetchPdfs (.ok ["A.pdf"]),
   .editQuery "Where is pricing discussed?",
   .submit (.ok { response := "See pricing section."
                  has_location := true
                  pages := [{ page := 4 }] }),
   .pageNav "yes"]

/-- C3 counterexample: after the yes-resolution of a page offer the state is
at rest (no pending prompt, nothing loading) yet the conversation log holds
five turns, an odd number, so the at-rest evenness invariant fails on this
reachable state. -/
theorem yes_resolution_odd_at_rest :
    (run offerYesTrace).showPagePrompt = false ∧
    (run offerYesTrace).loading = false ∧
    (run offerYesTrace).conversations.length = 5 := by decide

/-- The invariant that actually survives every step of an offer-free run: an
even turn count and no pending prompt. -/
def NoOfferInv (s : AppState) : Prop :=
  s.conversations.length % 2 = 0 ∧ s.showPagePrompt = false

theorem noOfferInv_step (s : AppState) (e : Event) (hs : NoOfferInv s)
    (he : offersLocation e = false) : NoOfferInv (step s e) := by
  obtain ⟨hlen, hflag⟩ := hs
  cases e with
  | editQuery q => exact ⟨hlen, hflag⟩
  | submit result =>
    simp only [step, clickSubmit]
    split
    · exact ⟨hlen, hflag⟩
    · unfold handleSubmit
      split
      · exact ⟨hlen, hflag⟩
      · cases result with
        | ok data =>
          have hpages : (data.has_location && decide (0 < data.pages.length)) = false := by
            simpa [offersLocation] using he
          constructor
          · simp only [applySubmitSuccess, hpages, if_false]
            by_cases hnew : s.isNewConversation <;> simp [hnew] <;> omega
          · simp [applySubmitSuccess, hpages, hflag]
        | err => exact ⟨hlen, hflag⟩
  | pageNav u =>
    have : canReply s = false := by simp [canReply, hflag]
    simp only [step, this, Bool.false_eq_true, if_false]
    exact ⟨hlen, hflag⟩
  | pdfSelect pdf => exact ⟨by simp [step, handlePdfSelect], hflag⟩
  | newConvo => exact ⟨by simp [step, toggleNewConversation], hflag⟩
  | fetchPdfs result =>
    cases result with
    | ok files =>
      refine ⟨?_, ?_⟩ <;>
        · simp only [step, fetchPdfFilesSuccess]
          split <;> simpa
    | err => exact ⟨hlen, hflag⟩

theorem noOfferInv_foldl (events : List Event) :
    ∀ s : AppState, NoOfferInv s → (∀ e ∈ events, offersLocation e = false) →
      NoOfferInv (events.foldl step s) := by
  induction events with
  | nil => intro s hs _; exact hs
  | cons e es ih =>
    intro s hs h
    simp only [List.foldl_cons]
    exact ih (step s e) (noOfferInv_step s e hs (h e (List.mem_cons_self e es)))
      (fun x hx => h x (List.mem_cons_of_mem e hx))

/-- C3 amended: in every run in which no response carries a located page set
(so no page offer is ever created), every reachable state is at rest with an
even number of turns. Once an offer occurs the invariant fails: a
yes-resolution leaves an odd count at rest (see the counterexample). -/
theorem no_offer_even_turns (events : List Event)
    (h : ∀ e ∈ events, offersLocation e = false) :
    (run events).conversations.length % 2 = 0 ∧
    (run events).showPagePrompt = false :=
  noOfferInv_foldl events initState ⟨rfl, rfl⟩ h

/-- A plain successful exchange with no located pages. -/
def plainTrace : List Event :=
  [.fetchPdfs (.ok ["A.pdf"]),
   .editQuery "What is the summary?",
   .submit (.ok { response := "It is about X." })]

/-- C3 amended witness: the offer-free trace ends with two turns, an even
count, and no pending prompt. -/
theorem no_offer_even_turns_witness :
    (∀ e ∈ plainTrace, offersLocation e = false) ∧
    ((run plainTrace).conversations.length % 2 = 0 ∧
     (run plainTrace).showPagePrompt = false) :=
  ⟨by decide, no_offer_even_turns plainTrace (by decide)⟩

end SmartPDF
